import Mathlib

/-!
Verification of the tracking-event sync tool.

We give a shallow embedding of the programs core logic:
the columnar dataset model, the Opta coordinate converter
(src/utils/optaConverter.ts), the alignment engine
(src/context/SyncContext.tsx), the ingestion transforms
(UploadPage: convertTrackingToOpta, filterEventsToSync) and the
JSON import validation (SyncPage handleFileChange).

JavaScript numbers are modelled as rationals; machine indices as
integers where the source can produce negative values (findIndex
returning -1, clamping arithmetic).  Dynamically typed column cells
are modelled by an explicit Value type distinguishing numbers, NaN,
null, undefined, strings and booleans, so that the strict-equality
and null-coalescing behaviour of the source is captured.
-/

namespace SyncTool

/-- A dynamically typed cell of a columnar dataset.  NaN is kept as a
separate constructor since the source tests Number.isNaN explicitly;
null and undefined are distinguished because the null-coalescing and
optional-chaining operators treat them alike while strict equality
does not conflate them with numbers. -/
inductive Value where
  | num (q : ℚ)
  | nan
  | null
  | undef
  | str (s : String)
  | bool (b : Bool)
  deriving DecidableEq, Repr

/-- Columnar dataset (interface ColumnarData in src/types/index.ts):
named columns, a stored row count, and the ordered field-name list. -/
structure ColumnarData where
  columns : List (String × List Value)
  numRows : ℕ
  fieldNames : List String
  deriving DecidableEq, Repr

/-- Column lookup: data.columns[name], absent keys give none. -/
def getCol (d : ColumnarData) (name : String) : Option (List Value) :=
  d.columns.lookup name

/-- Indexing a column at a natural index; out of range reads give
undefined as in JavaScript. -/
def getAt (col : List Value) (i : ℕ) : Value :=
  col.getD i Value.undef

/-- Indexing a column at a possibly negative integer index; negative
and out of range reads give undefined as in JavaScript. -/
def getAtZ (col : List Value) (i : ℤ) : Value :=
  if i < 0 then Value.undef else getAt col i.toNat

/-- Numeric view of a cell, with a default used only outside the
numeric domain the theorems quantify over. -/
def valNumD (v : Value) (d : ℚ) : ℚ :=
  match v with
  | Value.num q => q
  | _ => d

/-- Whether a cell holds a (non-NaN) number. -/
def isNumVal (v : Value) : Prop :=
  ∃ q, v = Value.num q

instance (v : Value) : Decidable (isNumVal v) := by
  unfold isNumVal
  cases v
  case num q => exact isTrue ⟨q, rfl⟩
  all_goals exact isFalse (by rintro ⟨q, h⟩; cases h)

/-! ## Coordinate converter (src/utils/optaConverter.ts) -/

def PITCH_LENGTH : ℚ := 105
def PITCH_WIDTH : ℚ := 68
def PITCH_X_HALF : ℚ := PITCH_LENGTH / 2
def PITCH_Y_HALF : ℚ := PITCH_WIDTH / 2

def X_BREAKS_OPTA : List ℚ := [0, 5.8, 11.5, 17, 20.4, 41, 50]
def X_BREAKS_REAL : List ℚ := [0, 5.5, 11, 16.5, 20.15, 43.35, 52.5]

def Y_BREAKS_OPTA : List ℚ := [0, 21.1, 36.8, 40, 44.2, 45.2, 50]
def Y_BREAKS_REAL : List ℚ := [0, 13.84, 24.84, 26.69, 30.22, 30.34, 34]

def REAL_X_MID : ℚ := 52.5
def REAL_Y_MID : ℚ := 34

/-- The interval-search loop of interp: starting from index i, advance
while i < breaks.length - 1 and value > breaks[i + 1].  The fuel
argument bounds the iteration count; interp supplies fuel equal to the
list length, which is enough since the index can advance at most
length - 1 times. -/
def interpLoop (sourceBreaks : List ℚ) (value : ℚ) : ℕ → ℕ → ℕ
  | 0, i => i
  | fuel + 1, i =>
    if i < sourceBreaks.length - 1 ∧ value > sourceBreaks.getD (i + 1) 0 then
      interpLoop sourceBreaks value fuel (i + 1)
    else i

/-- Linear interpolation between breakpoints (function interp).  The
interval index is found by the loop, clamped to the last valid segment,
and the segment map is applied without clamping the output. -/
def interp (value : ℚ) (sourceBreaks targetBreaks : List ℚ) : ℚ :=
  let i0 := interpLoop sourceBreaks value sourceBreaks.length 0
  let i := if i0 ≥ sourceBreaks.length - 1 then sourceBreaks.length - 2 else i0
  let t := (value - sourceBreaks.getD i 0) /
    (sourceBreaks.getD (i + 1) 0 - sourceBreaks.getD i 0)
  targetBreaks.getD i 0 + t * (targetBreaks.getD (i + 1) 0 - targetBreaks.getD i 0)

/-- Conversion with mirroring for values beyond the midpoint
(function convertWithMirror). -/
def convertWithMirror (value : ℚ) (sourceBreaks targetBreaks : List ℚ)
    (sourceMid : ℚ) : ℚ :=
  let isMirrored := value > sourceMid
  let adjValue := if isMirrored then 2 * sourceMid - value else value
  let targetMid := targetBreaks.getD (targetBreaks.length - 1) 0
  let converted := interp adjValue sourceBreaks targetBreaks
  if isMirrored then 2 * targetMid - converted else converted

/-- Math.round of JavaScript: round half toward positive infinity. -/
def jsRound (q : ℚ) : ℤ := ⌊q + 1/2⌋

/-- Point conversion from real coordinates to Opta (function realToOpta),
rounded to two decimals. -/
def realToOpta (x y : ℚ) : ℚ × ℚ :=
  let normX := x * REAL_X_MID / PITCH_X_HALF + REAL_X_MID
  let normY := y * REAL_Y_MID / PITCH_Y_HALF + REAL_Y_MID
  let optaX := convertWithMirror normX X_BREAKS_REAL X_BREAKS_OPTA REAL_X_MID
  let optaY := convertWithMirror normY Y_BREAKS_REAL Y_BREAKS_OPTA REAL_Y_MID
  ((jsRound (optaX * 100) : ℚ) / 100, (jsRound (optaY * 100) : ℚ) / 100)

/-- Array conversion (function realToOptaArrays), paired over the two
coordinate columns. -/
def realToOptaArrays (xArray yArray : List ℚ) : List ℚ × List ℚ :=
  (List.zipWith (fun a b => (realToOpta a b).1) xArray yArray,
   List.zipWith (fun a b => (realToOpta a b).2) xArray yArray)

/-! ## Alignment engine (src/context/SyncContext.tsx) -/

/-- String coercion of a cell, as the JavaScript String function renders
it.  Integer-valued rationals print like JavaScript integers; ids in the
datasets are integers or strings, so the rendering agrees on the domain
the engine uses. -/
def jsStringOfValue (v : Value) : String :=
  match v with
  | Value.num q => toString q
  | Value.nan => "NaN"
  | Value.null => "null"
  | Value.undef => "undefined"
  | Value.str s => s
  | Value.bool b => if b then "true" else "false"

/-- The event-id derivation used everywhere an id is needed:
String(eventIdCol?.[index] ?? index) — the opta_event_id cell when
present and neither null nor undefined, else the row index. -/
def deriveEventId (e : ColumnarData) (i : ℤ) : String :=
  match getCol e "opta_event_id" with
  | none => toString i
  | some col =>
    match getAtZ col i with
    | Value.null => toString i
    | Value.undef => toString i
    | v => jsStringOfValue v

/-- SyncedResults: the map from event id to confirmed tracking time.
Modelled as an association list; lookup takes the first binding, so
prepending a pair realizes the overwrite semantics of the object spread
used by the source. -/
abbrev Results : Type := List (String × ℚ)

/-- Lookup in a results map. -/
def Results.find (r : Results) (k : String) : Option ℚ :=
  List.lookup k r

/-- Whether an event id is synced: it is a key of the results map. -/
def isSyncedId (r : Results) (k : String) : Prop :=
  (Results.find r k).isSome

instance (r : Results) (k : String) : Decidable (isSyncedId r k) := by
  unfold isSyncedId; infer_instance

/-- getPeriodTimes: the sorted duplicate-free sample times of one
period.  The source collects matched_time cells of rows whose period_id
cell is strictly equal to the given period value into a set and sorts
numerically; sample times are numeric in the modelled domain, and
non-numeric cells are dropped here.  Deduplication followed by sorting
under the total numeric order produces the same list as the sets
insertion order followed by sorting. -/
def getPeriodTimes (t : ColumnarData) (periodId : Value) : List ℚ :=
  let periodCol := (getCol t "period_id").getD []
  let timeCol := (getCol t "matched_time").getD []
  let collected := (List.range t.numRows).filterMap
    (fun i =>
      if getAt periodCol i = periodId then
        match getAt timeCol i with
        | Value.num q => some q
        | _ => none
      else none)
  List.insertionSort (· ≤ ·) collected.dedup

/-- times.findIndex(t => t >= target): smallest index whose time is at
or after the target, and -1 when there is none. -/
def findIndexGE (times : List ℚ) (target : ℚ) : ℤ :=
  let k := times.findIdx (fun t => target ≤ t)
  if k < times.length then (k : ℤ) else -1

/-- updateOffsetForEvent: the frame offset restored for a synced event,
or the fallback.  For a synced event with a nonempty period, the result
is syncIdx - baseIdx where baseIdx is clamped to 0 when the nominal
time finds no sample at or after it, while syncIdx is left at -1 when
the confirmed time finds none. -/
def updateOffsetForEvent (e t : ColumnarData) (res : Results)
    (eventIndex : ℤ) (fallbackOffset : ℤ) : ℤ :=
  if (e.numRows : ℤ) ≤ eventIndex then fallbackOffset
  else
    let eventId := deriveEventId e eventIndex
    let eventPeriod := getAtZ ((getCol e "period_id").getD []) eventIndex
    let eventTime := valNumD (getAtZ ((getCol e "matched_time").getD []) eventIndex) 0
    match Results.find res eventId with
    | some syncedTime =>
      let periodTimes := getPeriodTimes t eventPeriod
      if periodTimes = [] then fallbackOffset
      else
        let baseIdx := findIndexGE periodTimes eventTime
        let syncIdx := findIndexGE periodTimes syncedTime
        syncIdx - (if 0 ≤ baseIdx then baseIdx else 0)
    | none => fallbackOffset

/-- The scan loop of findFirstUnsynced, with fuel bounding iterations:
while index < numRows, stop at the first unsynced id, else advance. -/
def findFirstUnsyncedAux (e : ColumnarData) (res : Results) :
    ℕ → ℤ → ℤ
  | 0, index => index
  | fuel + 1, index =>
    if index < (e.numRows : ℤ) then
      if isSyncedId res (deriveEventId e index) then
        findFirstUnsyncedAux e res fuel (index + 1)
      else index
    else index

/-- findFirstUnsynced: first index at or after startIndex whose event id
is absent from the results map, scanning while the index is below
numRows.  The fuel numRows - startIndex (truncated) covers every
iteration the source loop can make. -/
def findFirstUnsynced (e : ColumnarData) (res : Results) (startIndex : ℤ) : ℤ :=
  findFirstUnsyncedAux e res ((e.numRows : ℤ) - startIndex).toNat startIndex

/-- The engine state of a loaded session: the two datasets together
with the mutable alignment state of the provider. -/
structure EngineState where
  events : ColumnarData
  tracking : ColumnarData
  syncedResults : Results
  currentEventIndex : ℤ
  frameOffset : ℤ
  lastSyncOffset : ℤ

/-- nextEvent: advance by one, clamped above by numRows - 1, and
recompute the offset with lastSyncOffset as fallback. -/
def nextEvent (s : EngineState) : EngineState :=
  let newIndex := min ((s.events.numRows : ℤ) - 1) (s.currentEventIndex + 1)
  { s with currentEventIndex := newIndex,
           frameOffset := updateOffsetForEvent s.events s.tracking
             s.syncedResults newIndex s.lastSyncOffset }

/-- prevEvent: retreat by one, clamped below by 0, and recompute the
offset with lastSyncOffset as fallback. -/
def prevEvent (s : EngineState) : EngineState :=
  let newIndex := max 0 (s.currentEventIndex - 1)
  { s with currentEventIndex := newIndex,
           frameOffset := updateOffsetForEvent s.events s.tracking
             s.syncedResults newIndex s.lastSyncOffset }

/-- jumpToEvent: clamp the target into the valid range and recompute
the offset with lastSyncOffset as fallback. -/
def jumpToEvent (s : EngineState) (index : ℤ) : EngineState :=
  let newIndex := max 0 (min ((s.events.numRows : ℤ) - 1) index)
  { s with currentEventIndex := newIndex,
           frameOffset := updateOffsetForEvent s.events s.tracking
             s.syncedResults newIndex s.lastSyncOffset }

/-- syncCurrentEvent: write the confirmed time under the current
events id (object spread, realized by prepending), remember the
just-used offset, advance to the next unsynced event and recompute the
offset with the just-used offset as fallback.  A no-op when the cursor
is at or beyond numRows. -/
def syncCurrentEvent (s : EngineState) (currentTime : ℚ) : EngineState :=
  if (s.events.numRows : ℤ) ≤ s.currentEventIndex then s
  else
    let eventId := deriveEventId s.events s.currentEventIndex
    let newResults : Results := (eventId, currentTime) :: s.syncedResults
    let newIndex := findFirstUnsynced s.events newResults (s.currentEventIndex + 1)
    { s with syncedResults := newResults,
             lastSyncOffset := s.frameOffset,
             currentEventIndex := newIndex,
             frameOffset := updateOffsetForEvent s.events s.tracking
               newResults newIndex s.frameOffset }

/-- skipEvent: advance to the next unsynced event without writing a
result and without touching lastSyncOffset. -/
def skipEvent (s : EngineState) : EngineState :=
  let newIndex := findFirstUnsynced s.events s.syncedResults (s.currentEventIndex + 1)
  { s with currentEventIndex := newIndex,
           frameOffset := updateOffsetForEvent s.events s.tracking
             s.syncedResults newIndex s.lastSyncOffset }

/-- uploadResults: wholesale replacement of the results map, cursor at
the first unsynced event from 0, offset recomputed with fallback 0,
lastSyncOffset reset to 0. -/
def uploadResults (s : EngineState) (results : Results) : EngineState :=
  let firstUnsynced := findFirstUnsynced s.events results 0
  { s with syncedResults := results,
           currentEventIndex := firstUnsynced,
           frameOffset := updateOffsetForEvent s.events s.tracking
             results firstUnsynced 0,
           lastSyncOffset := 0 }

/-! ## Ingestion transforms (UploadPage) -/

/-- The fixed set of syncable event types, in source order. -/
def SYNCABLE_EVENT_TYPES : List ℚ := [1, 5, 49, 12, 44, 6, 8, 13, 14, 15, 16, 2]

/-- The per-row filter criterion of filterEventsToSync: x and y are
neither null nor undefined nor NaN, the period is strictly equal to the
number 1 or 2, and the event type is a number in the syncable set
(Set.has uses same-value-zero equality, so only a numeric cell can be
a member). -/
def syncableRow (xCol yCol periodCol eventTypeCol : List Value) (i : ℕ) : Prop :=
  getAt xCol i ≠ Value.null ∧ getAt xCol i ≠ Value.undef ∧ getAt xCol i ≠ Value.nan ∧
  getAt yCol i ≠ Value.null ∧ getAt yCol i ≠ Value.undef ∧ getAt yCol i ≠ Value.nan ∧
  (getAt periodCol i = Value.num 1 ∨ getAt periodCol i = Value.num 2) ∧
  (∃ q, getAt eventTypeCol i = Value.num q ∧ q ∈ SYNCABLE_EVENT_TYPES)

instance (v : Value) (L : List ℚ) : Decidable (∃ q, v = Value.num q ∧ q ∈ L) :=
  match v with
  | Value.num q =>
    if hm : q ∈ L then isTrue ⟨q, rfl, hm⟩
    else isFalse (fun hx => by
      obtain ⟨q', h, hmem⟩ := hx
      injection h with e
      exact hm (e ▸ hmem))
  | Value.nan => isFalse (fun hx => by obtain ⟨q', h, _⟩ := hx; cases h)
  | Value.null => isFalse (fun hx => by obtain ⟨q', h, _⟩ := hx; cases h)
  | Value.undef => isFalse (fun hx => by obtain ⟨q', h, _⟩ := hx; cases h)
  | Value.str _ => isFalse (fun hx => by obtain ⟨q', h, _⟩ := hx; cases h)
  | Value.bool _ => isFalse (fun hx => by obtain ⟨q', h, _⟩ := hx; cases h)

instance (xCol yCol periodCol eventTypeCol : List Value) (i : ℕ) :
    Decidable (syncableRow xCol yCol periodCol eventTypeCol i) := by
  unfold syncableRow
  infer_instance

/-- The increasing list of row indices kept by the filter. -/
def validIndices (d : ColumnarData)
    (xCol yCol periodCol eventTypeCol : List Value) : List ℕ :=
  (List.range d.numRows).filter
    (fun i => decide (syncableRow xCol yCol periodCol eventTypeCol i))

/-- filterEventsToSync: keep only syncable rows, rebuilding every
column listed in fieldNames by mapping over the valid indices; when any
of the four needed columns is absent, return the dataset unmodified. -/
def filterEventsToSync (d : ColumnarData) : ColumnarData :=
  match getCol d "x", getCol d "y", getCol d "period_id", getCol d "event_type_id" with
  | some xCol, some yCol, some periodCol, some eventTypeCol =>
    let valid := validIndices d xCol yCol periodCol eventTypeCol
    { columns := d.fieldNames.map
        (fun f => (f, valid.map (fun i => getAt ((getCol d f).getD []) i))),
      numRows := valid.length,
      fieldNames := d.fieldNames }
  | _, _, _, _ => d

/-- convertTrackingToOpta: replace the pos_x and pos_y columns by their
converted values (object spread over columns, realized by prepending
the two new bindings); when either column is absent, return the dataset
unmodified.  Cells are numeric in the modelled domain. -/
def convertTrackingToOpta (d : ColumnarData) : ColumnarData :=
  match getCol d "pos_x", getCol d "pos_y" with
  | some posXCol, some posYCol =>
    let pair := realToOptaArrays (posXCol.map (fun v => valNumD v 0))
      (posYCol.map (fun v => valNumD v 0))
    { d with columns :=
        ("pos_x", pair.1.map Value.num) :: ("pos_y", pair.2.map Value.num) ::
          d.columns }
  | _, _ => d

/-! ## JSON import validation (SyncPage handleFileChange) -/

/-- A parsed JSON value. -/
inductive Json where
  | obj (entries : List (String × Json))
  | arr (elems : List Json)
  | num (q : ℚ)
  | str (s : String)
  | bool (b : Bool)
  | null

/-- The entry loop of handleFileChange: collect numeric values, and
stop at the first non-numeric value with its key as the error. -/
def validateEntries : List (String × Json) → Except String (List (String × ℚ))
  | [] => Except.ok []
  | (k, Json.num q) :: rest =>
    match validateEntries rest with
    | Except.ok r => Except.ok ((k, q) :: r)
    | Except.error msg => Except.error msg
  | (k, _) :: _ => Except.error k

/-- Import validation of handleFileChange: the top-level value must be
an object (not an array, not null, not a primitive), and every value
must be a number; the error carries the offending key when there is
one. -/
def validateImport : Json → Except String (List (String × ℚ))
  | Json.obj entries => validateEntries entries
  | _ => Except.error "Invalid format - expected a JSON object"

/-- handleFileChange after parsing: a rejected payload leaves the state
unchanged (the handler only alerts); an accepted payload is applied
through uploadResults. -/
def handleFileChange (s : EngineState) (parsed : Json) : EngineState :=
  match validateImport parsed with
  | Except.error _ => s
  | Except.ok results => uploadResults s results

/-! ## Definition modelled from the spec wording, for comparison -/

/-- The spec version of the index lookup, following the spec words for
operation nearestIndexAtOrAfter: the smallest index i such that
times[i] >= target, and the last valid index when no such index exists
(clamp-to-end, never a not-found value).  Used only to compare the
claimed behaviour with the source behaviour. -/
def nearestIndexAtOrAfterSpec (times : List ℚ) (target : ℚ) : ℤ :=
  let k := times.findIdx (fun t => target ≤ t)
  if k < times.length then (k : ℤ) else (times.length : ℤ) - 1

/-- Claim-language characterization of an index value k: either k is
the smallest index whose time is at or after the target, or no time is
at or after the target and k is the given default. -/
def leastIndexGEOr (times : List ℚ) (target : ℚ) (dflt : ℤ) (k : ℤ) : Prop :=
  (∃ n : ℕ, k = n ∧ n < times.length ∧ target ≤ times.getD n 0 ∧
    ∀ j < n, times.getD j 0 < target) ∨
  ((∀ j < times.length, times.getD j 0 < target) ∧ k = dflt)

/-- Whether a JSON value is a number: the import accepts exactly these
as map values. -/
def isNumJson (j : Json) : Prop := ∃ q, j = Json.num q

/-- The numeric content of a JSON value, with a default outside the
numeric case. -/
def jnumD : Json → ℚ
  | Json.num q => q
  | _ => 0

/-! ## Concrete datasets used as witnesses and counterexamples -/

/-- A one-event dataset whose event has period 1 and nominal time 50. -/
def oneEvents : ColumnarData :=
  { columns := [("opta_event_id", [Value.str "E1"]),
                ("period_id", [Value.num 1]),
                ("matched_time", [Value.num 50])],
    numRows := 1,
    fieldNames := ["opta_event_id", "period_id", "matched_time"] }

/-- A one-sample tracking dataset: period 1, sample time 100. -/
def oneTracking : ColumnarData :=
  { columns := [("period_id", [Value.num 1]),
                ("matched_time", [Value.num 100])],
    numRows := 1,
    fieldNames := ["period_id", "matched_time"] }

/-- The two events of the spec example: E1 nominal 1000 and E2 nominal
2000, both in period 1. -/
def exEvents : ColumnarData :=
  { columns := [("opta_event_id", [Value.str "E1", Value.str "E2"]),
                ("period_id", [Value.num 1, Value.num 1]),
                ("matched_time", [Value.num 1000, Value.num 2000])],
    numRows := 2,
    fieldNames := ["opta_event_id", "period_id", "matched_time"] }

/-- The period-1 sample times of the spec example: 900 to 2050 in steps
of 50. -/
def exTimes : List ℚ :=
  [900, 950, 1000, 1050, 1100, 1150, 1200, 1250, 1300, 1350, 1400, 1450,
   1500, 1550, 1600, 1650, 1700, 1750, 1800, 1850, 1900, 1950, 2000, 2050]

/-- Tracking dataset holding the spec example sample times. -/
def exTracking : ColumnarData :=
  { columns := [("period_id", exTimes.map (fun _ => Value.num 1)),
                ("matched_time", exTimes.map Value.num)],
    numRows := 24,
    fieldNames := ["period_id", "matched_time"] }

/-- The spec example state: cursor on E1 with frame offset 2 and no
confirmed syncs. -/
def exState : EngineState :=
  { events := exEvents, tracking := exTracking, syncedResults := [],
    currentEventIndex := 0, frameOffset := 2, lastSyncOffset := 0 }

/-- The spec example state just before the destructive import: E1 and
E2 both confirmed. -/
def exStateSynced : EngineState :=
  { exState with syncedResults := [("E1", 1100), ("E2", 1900)] }

/-- x column of a three-row ingestion example: the second cell is
null. -/
def ingX : List Value := [Value.num 10, Value.null, Value.num 30]

/-- y column of the ingestion example. -/
def ingY : List Value := [Value.num 5, Value.num 6, Value.num 7]

/-- period column of the ingestion example: the third row is in
period 3. -/
def ingP : List Value := [Value.num 1, Value.num 1, Value.num 3]

/-- event-type column of the ingestion example. -/
def ingT : List Value := [Value.num 1, Value.num 1, Value.num 1]

/-- A three-row events dataset for the ingestion filter: only the first
row is syncable. -/
def ingEvents : ColumnarData :=
  { columns := [("x", ingX), ("y", ingY), ("period_id", ingP),
                ("event_type_id", ingT)],
    numRows := 3,
    fieldNames := ["x", "y", "period_id", "event_type_id"] }

/-- A one-row tracking dataset for the coordinate conversion. -/
def posData : ColumnarData :=
  { columns := [("pos_x", [Value.num 10]), ("pos_y", [Value.num 5]),
                ("period_id", [Value.num 1])],
    numRows := 1,
    fieldNames := ["pos_x", "pos_y", "period_id"] }

/-! ## Interval selection of the interpolation loop

For a seven-entry breakpoint table the loop stops at the first index
whose successor breakpoint is at or after the value; each lemma pins
one stopping position, and the final one covers the clamp to the last
segment when the value is beyond every breakpoint. -/

lemma interp_stop0 {v a0 a1 a2 a3 a4 a5 a6 b0 b1 b2 b3 b4 b5 b6 : ℚ}
    (h1 : v ≤ a1) :
    interp v [a0, a1, a2, a3, a4, a5, a6] [b0, b1, b2, b3, b4, b5, b6] =
      b0 + (v - a0) / (a1 - a0) * (b1 - b0) := by
  simp only [interp, interpLoop, List.length_cons, List.length_nil,
    List.getD_cons_zero, List.getD_cons_succ]
  norm_num [not_lt.2 h1]

lemma interp_stop1 {v a0 a1 a2 a3 a4 a5 a6 b0 b1 b2 b3 b4 b5 b6 : ℚ}
    (g1 : a1 < v) (h1 : v ≤ a2) :
    interp v [a0, a1, a2, a3, a4, a5, a6] [b0, b1, b2, b3, b4, b5, b6] =
      b1 + (v - a1) / (a2 - a1) * (b2 - b1) := by
  simp only [interp, interpLoop, List.length_cons, List.length_nil,
    List.getD_cons_zero, List.getD_cons_succ]
  norm_num [g1, not_lt.2 h1]

lemma interp_stop2 {v a0 a1 a2 a3 a4 a5 a6 b0 b1 b2 b3 b4 b5 b6 : ℚ}
    (g1 : a1 < v) (g2 : a2 < v) (h1 : v ≤ a3) :
    interp v [a0, a1, a2, a3, a4, a5, a6] [b0, b1, b2, b3, b4, b5, b6] =
      b2 + (v - a2) / (a3 - a2) * (b3 - b2) := by
  simp only [interp, interpLoop, List.length_cons, List.length_nil,
    List.getD_cons_zero, List.getD_cons_succ]
  norm_num [g1, g2, not_lt.2 h1]

lemma interp_stop3 {v a0 a1 a2 a3 a4 a5 a6 b0 b1 b2 b3 b4 b5 b6 : ℚ}
    (g1 : a1 < v) (g2 : a2 < v) (g3 : a3 < v) (h1 : v ≤ a4) :
    interp v [a0, a1, a2, a3, a4, a5, a6] [b0, b1, b2, b3, b4, b5, b6] =
      b3 + (v - a3) / (a4 - a3) * (b4 - b3) := by
  simp only [interp, interpLoop, List.length_cons, List.length_nil,
    List.getD_cons_zero, List.getD_cons_succ]
  norm_num [g1, g2, g3, not_lt.2 h1]

lemma interp_stop4 {v a0 a1 a2 a3 a4 a5 a6 b0 b1 b2 b3 b4 b5 b6 : ℚ}
    (g1 : a1 < v) (g2 : a2 < v) (g3 : a3 < v) (g4 : a4 < v) (h1 : v ≤ a5) :
    interp v [a0, a1, a2, a3, a4, a5, a6] [b0, b1, b2, b3, b4, b5, b6] =
      b4 + (v - a4) / (a5 - a4) * (b5 - b4) := by
  simp only [interp, interpLoop, List.length_cons, List.length_nil,
    List.getD_cons_zero, List.getD_cons_succ]
  norm_num [g1, g2, g3, g4, not_lt.2 h1]

lemma interp_stop5 {v a0 a1 a2 a3 a4 a5 a6 b0 b1 b2 b3 b4 b5 b6 : ℚ}
    (g1 : a1 < v) (g2 : a2 < v) (g3 : a3 < v) (g4 : a4 < v) (g5 : a5 < v)
    (h1 : v ≤ a6) :
    interp v [a0, a1, a2, a3, a4, a5, a6] [b0, b1, b2, b3, b4, b5, b6] =
      b5 + (v - a5) / (a6 - a5) * (b6 - b5) := by
  simp only [interp, interpLoop, List.length_cons, List.length_nil,
    List.getD_cons_zero, List.getD_cons_succ]
  norm_num [g1, g2, g3, g4, g5, not_lt.2 h1]

lemma interp_beyond {v a0 a1 a2 a3 a4 a5 a6 b0 b1 b2 b3 b4 b5 b6 : ℚ}
    (g1 : a1 < v) (g2 : a2 < v) (g3 : a3 < v) (g4 : a4 < v) (g5 : a5 < v)
    (g6 : a6 < v) :
    interp v [a0, a1, a2, a3, a4, a5, a6] [b0, b1, b2, b3, b4, b5, b6] =
      b5 + (v - a5) / (a6 - a5) * (b6 - b5) := by
  simp only [interp, interpLoop, List.length_cons, List.length_nil,
    List.getD_cons_zero, List.getD_cons_succ]
  norm_num [g1, g2, g3, g4, g5, g6]

/-! ## Scan lemmas for findFirstUnsynced -/

/-- The scan never moves backward. -/
lemma le_findFirstUnsyncedAux (e : ColumnarData) (res : Results) :
    ∀ (fuel : ℕ) (idx : ℤ), idx ≤ findFirstUnsyncedAux e res fuel idx := by
  intro fuel
  induction fuel with
  | zero => intro idx; exact le_refl idx
  | succ n ih =>
    intro idx
    simp only [findFirstUnsyncedAux]
    split_ifs with h1 h2
    · exact le_trans (by omega) (ih (idx + 1))
    · exact le_refl idx
    · exact le_refl idx

/-- Every index strictly before the scan result is synced. -/
lemma synced_of_lt_findFirstUnsyncedAux (e : ColumnarData) (res : Results) :
    ∀ (fuel : ℕ) (idx j : ℤ), idx ≤ j →
      j < findFirstUnsyncedAux e res fuel idx →
      isSyncedId res (deriveEventId e j) := by
  intro fuel
  induction fuel with
  | zero =>
    intro idx j h1 h2
    exact absurd (lt_of_le_of_lt h1 h2) (lt_irrefl idx)
  | succ n ih =>
    intro idx j h1 h2
    simp only [findFirstUnsyncedAux] at h2
    split_ifs at h2 with ha hb
    · rcases eq_or_lt_of_le h1 with rfl | hlt
      · exact hb
      · exact ih (idx + 1) j (by omega) h2
    · exact absurd (lt_of_le_of_lt h1 h2) (lt_irrefl idx)
    · exact absurd (lt_of_le_of_lt h1 h2) (lt_irrefl idx)

/-- Starting at or below numRows, the scan ends at or below numRows. -/
lemma findFirstUnsyncedAux_le (e : ColumnarData) (res : Results) :
    ∀ (fuel : ℕ) (idx : ℤ), idx ≤ (e.numRows : ℤ) →
      findFirstUnsyncedAux e res fuel idx ≤ (e.numRows : ℤ) := by
  intro fuel
  induction fuel with
  | zero => intro idx h; exact h
  | succ n ih =>
    intro idx h
    simp only [findFirstUnsyncedAux]
    split_ifs with h1 h2
    · exact ih (idx + 1) (by omega)
    · exact h
    · exact h

/-- With enough fuel, a scan result inside the dataset is unsynced. -/
lemma unsynced_at_findFirstUnsyncedAux (e : ColumnarData) (res : Results) :
    ∀ (fuel : ℕ) (idx : ℤ), (e.numRows : ℤ) - idx ≤ fuel →
      findFirstUnsyncedAux e res fuel idx < (e.numRows : ℤ) →
      ¬ isSyncedId res (deriveEventId e (findFirstUnsyncedAux e res fuel idx)) := by
  intro fuel
  induction fuel with
  | zero =>
    intro idx hfuel hlt
    simp only [findFirstUnsyncedAux] at hlt
    exact absurd hlt (by omega)
  | succ n ih =>
    intro idx hfuel hlt
    simp only [findFirstUnsyncedAux] at hlt ⊢
    split_ifs at hlt ⊢ with h1 h2
    · exact ih (idx + 1) (by omega) hlt
    · exact h2
    · exact absurd hlt h1

/-! ## Characterization of the index lookups -/

/-- findIndexGE returns the smallest index at or after the target, or
-1 when there is none. -/
lemma findIndexGE_least (times : List ℚ) (target : ℚ) :
    leastIndexGEOr times target (-1) (findIndexGE times target) := by
  unfold findIndexGE leastIndexGEOr
  by_cases h : times.findIdx (fun t => target ≤ t) < times.length
  · rw [if_pos h]
    left
    refine ⟨times.findIdx (fun t => target ≤ t), rfl, h, ?_, ?_⟩
    · have hfound := List.findIdx_getElem (w := h)
      rw [List.getD_eq_getElem _ _ h]
      simpa using hfound
    · intro j hj
      have hjlen : j < times.length := lt_trans hj h
      have hnot := List.not_of_lt_findIdx hj
      rw [List.getD_eq_getElem _ _ hjlen]
      simpa [not_le] using hnot
  · rw [if_neg h]
    right
    refine ⟨?_, rfl⟩
    intro j hj
    have hjf : j < times.findIdx (fun t => target ≤ t) :=
      lt_of_lt_of_le hj (le_of_not_lt h)
    have hnot := List.not_of_lt_findIdx hjf
    rw [List.getD_eq_getElem _ _ hj]
    simpa [not_le] using hnot

/-- The clamped base index of updateOffsetForEvent is the smallest
index at or after the target, or 0 when there is none. -/
lemma findIndexGE_clamped_least (times : List ℚ) (target : ℚ) :
    leastIndexGEOr times target 0
      (if 0 ≤ findIndexGE times target then findIndexGE times target else 0) := by
  rcases findIndexGE_least times target with ⟨n, hn, hlen, hge, hlt⟩ | ⟨hall, hk⟩
  · left
    refine ⟨n, ?_, hlen, hge, hlt⟩
    rw [if_pos (by rw [hn]; exact_mod_cast Int.ofNat_nonneg n)]
    exact hn
  · right
    refine ⟨hall, ?_⟩
    rw [hk]
    norm_num

/-! ## Theorems -/

/-- Claim C3: importResults (uploadResults) is a wholesale, destructive
replacement: after the import the results map equals exactly the
imported map (entries absent from it are dropped, never merged), the
cursor moves to the first unsynced event from 0, the frame offset is
recomputed with fallback 0, and lastSyncOffset equals 0; in the
concrete example, importing the map with only E2 drops the E1 entry. -/
theorem uploadResults_wholesale_replacement (s : EngineState) (r : Results) :
    (uploadResults s r).syncedResults = r ∧
    (∀ k, Results.find (uploadResults s r).syncedResults k = Results.find r k) ∧
    (uploadResults s r).currentEventIndex = findFirstUnsynced s.events r 0 ∧
    (uploadResults s r).frameOffset =
      updateOffsetForEvent s.events s.tracking r (findFirstUnsynced s.events r 0) 0 ∧
    (uploadResults s r).lastSyncOffset = 0 ∧
    (uploadResults exStateSynced [("E2", 2100)]).syncedResults = [("E2", 2100)] ∧
    Results.find (uploadResults exStateSynced [("E2", 2100)]).syncedResults "E1" = none ∧
    Results.find (uploadResults exStateSynced [("E2", 2100)]).syncedResults "E2" = some 2100 :=
  ⟨rfl, fun _ => rfl, rfl, rfl, rfl, by decide, by decide, by decide⟩

/-- Claim C5: navigation never errors on out-of-range targets and
always clamps into the valid index range: jumping to -5 lands on 0,
jumping to numRows + 5 lands on numRows - 1, advancing from the last
index stays there, retreating from 0 stays there, and in each case the
frame offset is recomputed through updateOffsetForEvent with
lastSyncOffset as fallback. -/
theorem navigation_clamps (s : EngineState) (h : 1 ≤ s.events.numRows) :
    (jumpToEvent s (-5)).currentEventIndex = 0 ∧
    (jumpToEvent s ((s.events.numRows : ℤ) + 5)).currentEventIndex =
      (s.events.numRows : ℤ) - 1 ∧
    (s.currentEventIndex = (s.events.numRows : ℤ) - 1 →
      (nextEvent s).currentEventIndex = (s.events.numRows : ℤ) - 1) ∧
    (s.currentEventIndex = 0 → (prevEvent s).currentEventIndex = 0) ∧
    (∀ i : ℤ, 0 ≤ (jumpToEvent s i).currentEventIndex ∧
      (jumpToEvent s i).currentEventIndex ≤ (s.events.numRows : ℤ) - 1) ∧
    (∀ i : ℤ, (jumpToEvent s i).frameOffset = updateOffsetForEvent s.events
      s.tracking s.syncedResults (jumpToEvent s i).currentEventIndex
      s.lastSyncOffset) ∧
    ((nextEvent s).frameOffset = updateOffsetForEvent s.events s.tracking
      s.syncedResults (nextEvent s).currentEventIndex s.lastSyncOffset) ∧
    ((prevEvent s).frameOffset = updateOffsetForEvent s.events s.tracking
      s.syncedResults (prevEvent s).currentEventIndex s.lastSyncOffset) := by
  have hN : (1 : ℤ) ≤ (s.events.numRows : ℤ) := by exact_mod_cast h
  refine ⟨?_, ?_, ?_, ?_, ?_, ?_, rfl, rfl⟩
  · simp only [jumpToEvent]
    omega
  · simp only [jumpToEvent]
    omega
  · intro hc
    simp only [nextEvent, hc]
    omega
  · intro hc
    simp only [prevEvent, hc]
    omega
  · intro i
    simp only [jumpToEvent]
    omega
  · intro i
    rfl

/-- Witness for claim C5 at the concrete spec example state. -/
theorem navigation_clamps_witness :
    (jumpToEvent exState (-5)).currentEventIndex = 0 ∧
    (jumpToEvent exState ((exState.events.numRows : ℤ) + 5)).currentEventIndex =
      (exState.events.numRows : ℤ) - 1 :=
  ⟨(navigation_clamps exState (by decide)).1,
   (navigation_clamps exState (by decide)).2.1⟩

/-- Claim C2: confirming with tracking time t while the cursor is in
range writes the confirmed time under the current events id
(overwriting any other binding for that id and leaving other ids
unchanged), records the just-used frame offset as lastSyncOffset,
advances the cursor to the first unsynced event after it, and
recomputes the frame offset with the just-used offset as fallback;
confirming with the cursor at or beyond numRows is a no-op.  On the
spec example, the next event starts with frame offset 2, not 0. -/
theorem syncCurrentEvent_spec (s : EngineState) (t : ℚ)
    (h : s.currentEventIndex < (s.events.numRows : ℤ)) :
    Results.find (syncCurrentEvent s t).syncedResults
      (deriveEventId s.events s.currentEventIndex) = some t ∧
    (∀ k, k ≠ deriveEventId s.events s.currentEventIndex →
      Results.find (syncCurrentEvent s t).syncedResults k =
        Results.find s.syncedResults k) ∧
    (syncCurrentEvent s t).lastSyncOffset = s.frameOffset ∧
    (syncCurrentEvent s t).currentEventIndex =
      findFirstUnsynced s.events (syncCurrentEvent s t).syncedResults
        (s.currentEventIndex + 1) ∧
    (syncCurrentEvent s t).frameOffset =
      updateOffsetForEvent s.events s.tracking
        (syncCurrentEvent s t).syncedResults
        (syncCurrentEvent s t).currentEventIndex s.frameOffset ∧
    (∀ (s' : EngineState) (t' : ℚ),
      (s'.events.numRows : ℤ) ≤ s'.currentEventIndex →
        syncCurrentEvent s' t' = s') ∧
    Results.find (syncCurrentEvent exState 1100).syncedResults "E1" = some 1100 ∧
    (syncCurrentEvent exState 1100).lastSyncOffset = 2 ∧
    (syncCurrentEvent exState 1100).currentEventIndex = 1 ∧
    (syncCurrentEvent exState 1100).frameOffset = 2 := by
  have hif : ¬ ((s.events.numRows : ℤ) ≤ s.currentEventIndex) := not_le.2 h
  refine ⟨?_, ?_, ?_, ?_, ?_, ?_, by decide, by decide, by decide, by decide⟩
  · simp only [syncCurrentEvent, if_neg hif, Results.find, List.lookup,
      beq_self_eq_true]
  · intro k hk
    simp only [syncCurrentEvent, if_neg hif, Results.find, List.lookup,
      beq_eq_false_iff_ne.2 hk]
  · simp only [syncCurrentEvent, if_neg hif]
  · simp only [syncCurrentEvent, if_neg hif]
  · simp only [syncCurrentEvent, if_neg hif]
  · intro s' t' h'
    simp only [syncCurrentEvent, if_pos h']

/-- Witness for claim C2 at the concrete spec example state. -/
theorem syncCurrentEvent_spec_witness :
    exState.currentEventIndex < (exState.events.numRows : ℤ) ∧
    Results.find (syncCurrentEvent exState 1100).syncedResults
      (deriveEventId exState.events exState.currentEventIndex) = some 1100 :=
  ⟨by decide, (syncCurrentEvent_spec exState 1100 (by decide)).1⟩

/-- Claim C4 counterexample: with a start index beyond numRows, every
event from the start onward is vacuously synced, yet the scan returns
the start index rather than numRows — on a two-event dataset the scan
from 3 returns 3, not 2. -/
theorem findFirstUnsynced_counterexample :
    (∀ j : ℤ, 3 ≤ j → j < (exEvents.numRows : ℤ) →
      isSyncedId [("E1", (1100 : ℚ)), ("E2", 1900)] (deriveEventId exEvents j)) ∧
    findFirstUnsynced exEvents [("E1", 1100), ("E2", 1900)] 3 = 3 ∧
    ¬ findFirstUnsynced exEvents [("E1", 1100), ("E2", 1900)] 3 =
      (exEvents.numRows : ℤ) := by
  refine ⟨?_, by decide, by decide⟩
  intro j h1 h2
  have hn : exEvents.numRows = 2 := rfl
  rw [hn] at h2
  omega

/-- Claim C4 as amended: the scan result is at least the start index,
every index from the start up to (excluding) the result is synced, a
result inside the dataset is unsynced, and — for start indices at most
numRows — the result is numRows exactly when every remaining event is
synced. -/
theorem findFirstUnsynced_scan (e : ColumnarData) (res : Results) (start : ℤ) :
    start ≤ findFirstUnsynced e res start ∧
    (∀ j : ℤ, start ≤ j → j < findFirstUnsynced e res start →
      isSyncedId res (deriveEventId e j)) ∧
    (findFirstUnsynced e res start < (e.numRows : ℤ) →
      ¬ isSyncedId res (deriveEventId e (findFirstUnsynced e res start))) ∧
    (start ≤ (e.numRows : ℤ) →
      (∀ j : ℤ, start ≤ j → j < (e.numRows : ℤ) →
        isSyncedId res (deriveEventId e j)) →
      findFirstUnsynced e res start = (e.numRows : ℤ)) := by
  refine ⟨le_findFirstUnsyncedAux e res _ start,
    fun j h1 h2 => synced_of_lt_findFirstUnsyncedAux e res _ start j h1 h2,
    fun hlt => unsynced_at_findFirstUnsyncedAux e res _ start (by omega) hlt,
    fun hstart hall => ?_⟩
  have hge := le_findFirstUnsyncedAux e res ((e.numRows : ℤ) - start).toNat start
  have hle := findFirstUnsyncedAux_le e res ((e.numRows : ℤ) - start).toNat start hstart
  rcases eq_or_lt_of_le hle with heq | hlt
  · exact heq
  · exact absurd
      (hall _ hge hlt)
      (unsynced_at_findFirstUnsyncedAux e res _ start (by omega) hlt)

/-- Witness for claim C4 as amended: with only E1 confirmed, the scan
from 1 stops inside the dataset at the unsynced E2. -/
theorem findFirstUnsynced_scan_witness :
    findFirstUnsynced exEvents [("E1", (1100 : ℚ))] 1 < (exEvents.numRows : ℤ) ∧
    ¬ isSyncedId [("E1", (1100 : ℚ))]
      (deriveEventId exEvents (findFirstUnsynced exEvents [("E1", (1100 : ℚ))] 1)) :=
  ⟨by decide, (findFirstUnsynced_scan exEvents [("E1", (1100 : ℚ))] 1).2.2.1 (by decide)⟩

/-- Claim C1 counterexample: a synced one-event dataset whose period
holds the single sample time 100, with nominal time 50 and confirmed
time 200.  Under the claimed clamp-to-end lookups both indices would be
0 and the offset 0, but the source leaves the confirmed-time lookup at
-1 and returns -1. -/
theorem offsetForEvent_counterexample :
    Results.find [("E1", (200 : ℚ))] (deriveEventId oneEvents 0) = some 200 ∧
    getPeriodTimes oneTracking
      (getAtZ ((getCol oneEvents "period_id").getD []) 0) = [100] ∧
    updateOffsetForEvent oneEvents oneTracking [("E1", 200)] 0 99 = -1 ∧
    nearestIndexAtOrAfterSpec [100] 200 - nearestIndexAtOrAfterSpec [100] 50 = 0 ∧
    ¬ updateOffsetForEvent oneEvents oneTracking [("E1", 200)] 0 99 =
      nearestIndexAtOrAfterSpec [100] 200 - nearestIndexAtOrAfterSpec [100] 50 :=
  ⟨by decide, by decide, by decide, by decide, by decide⟩

/-- Claim C1 as amended: updateOffsetForEvent returns the fallback when
the index is out of range, when the event is unsynced, or when its
period has no tracking samples; for a synced event with a nonempty
period it returns syncIdx - baseIdx, where baseIdx is the smallest
index into the sorted distinct period times at or after the nominal
time — clamped to 0, the first index, when the nominal time is after
the last sample — and syncIdx is the smallest such index at or after
the confirmed time, left at -1 when the confirmed time is after the
last sample. -/
theorem offsetForEvent_cases (e t : ColumnarData) (res : Results) (i fb : ℤ) :
    ((e.numRows : ℤ) ≤ i → updateOffsetForEvent e t res i fb = fb) ∧
    (Results.find res (deriveEventId e i) = none →
      updateOffsetForEvent e t res i fb = fb) ∧
    (∀ st : ℚ, Results.find res (deriveEventId e i) = some st →
      getPeriodTimes t (getAtZ ((getCol e "period_id").getD []) i) = [] →
      updateOffsetForEvent e t res i fb = fb) ∧
    (∀ st : ℚ, i < (e.numRows : ℤ) →
      Results.find res (deriveEventId e i) = some st →
      getPeriodTimes t (getAtZ ((getCol e "period_id").getD []) i) ≠ [] →
      ∃ sIdx bIdx : ℤ,
        updateOffsetForEvent e t res i fb = sIdx - bIdx ∧
        leastIndexGEOr (getPeriodTimes t (getAtZ ((getCol e "period_id").getD []) i))
          (valNumD (getAtZ ((getCol e "matched_time").getD []) i) 0) 0 bIdx ∧
        leastIndexGEOr (getPeriodTimes t (getAtZ ((getCol e "period_id").getD []) i))
          st (-1) sIdx) := by
  refine ⟨fun h => ?_, fun hnone => ?_, fun st hsome htimes => ?_,
    fun st hi hsome hne => ?_⟩
  · simp only [updateOffsetForEvent, if_pos h]
  · by_cases h : (e.numRows : ℤ) ≤ i
    · simp only [updateOffsetForEvent, if_pos h]
    · simp only [updateOffsetForEvent, if_neg h, hnone]
  · by_cases h : (e.numRows : ℤ) ≤ i
    · simp only [updateOffsetForEvent, if_pos h]
    · simp only [updateOffsetForEvent, if_neg h, hsome, htimes, if_pos]
  · simp only [updateOffsetForEvent, if_neg (not_le.2 hi), hsome, if_neg hne]
    exact ⟨_, _, rfl, findIndexGE_clamped_least _ _, findIndexGE_least _ _⟩

/-- A payload whose values are all numeric validates to the map of its
numeric entries. -/
lemma validateEntries_ok (es : List (String × Json))
    (h : ∀ p ∈ es, isNumJson p.2) :
    validateEntries es = Except.ok (es.map (fun p => (p.1, jnumD p.2))) := by
  induction es with
  | nil => rfl
  | cons hd tl ih =>
    obtain ⟨q, hq⟩ := h hd (List.mem_cons_self hd tl)
    obtain ⟨k, v⟩ := hd
    simp only at hq
    subst hq
    simp only [validateEntries, List.map_cons,
      ih (fun p hp => h p (List.mem_cons_of_mem _ hp)), jnumD]

/-- A payload containing a non-numeric value validates to an error
carrying the key of the first such entry. -/
lemma validateEntries_error (es : List (String × Json))
    (h : ∃ p ∈ es, ¬ isNumJson p.2) :
    ∃ k v pre post, validateEntries es = Except.error k ∧
      es = pre ++ (k, v) :: post ∧ (∀ p ∈ pre, isNumJson p.2) ∧
      ¬ isNumJson v := by
  induction es with
  | nil => simp at h
  | cons hd tl ih =>
    obtain ⟨k0, v0⟩ := hd
    by_cases hnum : isNumJson v0
    · obtain ⟨q, hq⟩ := hnum
      subst hq
      have htl : ∃ p ∈ tl, ¬ isNumJson p.2 := by
        rcases h with ⟨p, hp, hbad⟩
        rcases List.mem_cons.1 hp with rfl | hmem
        · exact absurd ⟨q, rfl⟩ hbad
        · exact ⟨p, hmem, hbad⟩
      obtain ⟨k, v, pre, post, herr, hsplit, hpre, hbad⟩ := ih htl
      refine ⟨k, v, (k0, Json.num q) :: pre, post, ?_, by simp [hsplit], ?_, hbad⟩
      · simp only [validateEntries, herr]
      · intro p hp
        rcases List.mem_cons.1 hp with rfl | hmem
        · exact ⟨q, rfl⟩
        · exact hpre p hmem
    · refine ⟨k0, v0, [], tl, ?_, by simp, by simp, hnum⟩
      cases v0 with
      | num q => exact absurd ⟨q, rfl⟩ hnum
      | obj es => rfl
      | arr es => rfl
      | str s => rfl
      | bool b => rfl
      | null => rfl

/-- Claim C8: import validation is all-or-nothing: a payload that is
not an object, or any of whose values is not numeric, is rejected with
the state left unchanged — the error carries the key of the first
offending entry — and a payload whose values are all numeric is applied
through uploadResults. -/
theorem importValidation_atomic (s : EngineState) (j : Json) :
    ((∀ es, ¬ j = Json.obj es) → handleFileChange s j = s) ∧
    (∀ es, j = Json.obj es → (∃ p ∈ es, ¬ isNumJson p.2) →
      handleFileChange s j = s ∧
      ∃ k v pre post, validateImport j = Except.error k ∧
        es = pre ++ (k, v) :: post ∧ (∀ p ∈ pre, isNumJson p.2) ∧
        ¬ isNumJson v) ∧
    (∀ es, j = Json.obj es → (∀ p ∈ es, isNumJson p.2) →
      validateImport j = Except.ok (es.map (fun p => (p.1, jnumD p.2))) ∧
      handleFileChange s j =
        uploadResults s (es.map (fun p => (p.1, jnumD p.2)))) := by
  refine ⟨fun h => ?_, fun es hj hbad => ?_, fun es hj hall => ?_⟩
  · cases j with
    | obj es => exact absurd rfl (h es)
    | arr es => rfl
    | num q => rfl
    | str st => rfl
    | bool b => rfl
    | null => rfl
  · subst hj
    obtain ⟨k, v, pre, post, herr, hsplit, hpre, hv⟩ := validateEntries_error es hbad
    constructor
    · simp only [handleFileChange, validateImport, herr]
    · exact ⟨k, v, pre, post, by simp only [validateImport, herr], hsplit, hpre, hv⟩
  · subst hj
    have hok := validateEntries_ok es hall
    exact ⟨by simp only [validateImport, hok],
      by simp only [handleFileChange, validateImport, hok]⟩

/-- Witness for claim C8: a payload with a string value under E2 is
rejected with the state unchanged, and an all-numeric payload is
applied. -/
theorem importValidation_atomic_witness :
    (handleFileChange exState
      (Json.obj [("E1", Json.num 1), ("E2", Json.str "x")]) = exState ∧
     ∃ k v pre post,
       validateImport (Json.obj [("E1", Json.num 1), ("E2", Json.str "x")]) =
         Except.error k ∧
       [("E1", Json.num 1), ("E2", Json.str "x")] = pre ++ (k, v) :: post ∧
       (∀ p ∈ pre, isNumJson p.2) ∧ ¬ isNumJson v) ∧
    handleFileChange exState (Json.obj [("E1", Json.num 1100)]) =
      uploadResults exState ([("E1", Json.num 1100)].map
        (fun p => (p.1, jnumD p.2))) :=
  ⟨(importValidation_atomic exState
      (Json.obj [("E1", Json.num 1), ("E2", Json.str "x")])).2.1 _ rfl
      ⟨("E2", Json.str "x"), by simp, by rintro ⟨q, hq⟩; cases hq⟩,
   ((importValidation_atomic exState (Json.obj [("E1", Json.num 1100)])).2.2 _ rfl
      (by rintro p hp; simp at hp; subst hp; exact ⟨1100, rfl⟩)).2⟩

/-- Witness for claim C1 as amended, in the synced nonempty-period case
of the one-event dataset. -/
theorem offsetForEvent_cases_witness :
    (0 : ℤ) < (oneEvents.numRows : ℤ) ∧
    Results.find [("E1", (200 : ℚ))] (deriveEventId oneEvents 0) = some 200 ∧
    ¬ getPeriodTimes oneTracking
      (getAtZ ((getCol oneEvents "period_id").getD []) 0) = [] ∧
    (∃ sIdx bIdx : ℤ,
      updateOffsetForEvent oneEvents oneTracking [("E1", 200)] 0 99 = sIdx - bIdx ∧
      leastIndexGEOr (getPeriodTimes oneTracking
          (getAtZ ((getCol oneEvents "period_id").getD []) 0))
        (valNumD (getAtZ ((getCol oneEvents "matched_time").getD []) 0) 0) 0 bIdx ∧
      leastIndexGEOr (getPeriodTimes oneTracking
          (getAtZ ((getCol oneEvents "period_id").getD []) 0))
        200 (-1) sIdx) :=
  ⟨by decide, by decide, by decide,
   (offsetForEvent_cases oneEvents oneTracking [("E1", 200)] 0 99).2.2.2
     200 (by decide) (by decide) (by decide)⟩

/-- Looking a name up in an association list built by pairing each name
with a value yields that value for any listed name. -/
lemma lookup_pairMap (l : List String) (g : String → List Value) (f : String)
    (hf : f ∈ l) :
    (l.map (fun x => (x, g x))).lookup f = some (g f) := by
  induction l with
  | nil => cases hf
  | cons hd tl ih =>
    by_cases he : f = hd
    · subst he
      simp [List.lookup]
    · have hmem : f ∈ tl := by
        rcases List.mem_cons.1 hf with h | h
        · exact absurd h he
        · exact h
      simpa [List.lookup, beq_eq_false_iff_ne.2 he] using ih hmem

/-- The syncable event-type list of the source holds the same types as
the sorted listing of the claim. -/
lemma syncable_set_eq (q : ℚ) :
    q ∈ SYNCABLE_EVENT_TYPES ↔
      q ∈ ([1, 2, 5, 6, 8, 12, 13, 14, 15, 16, 44, 49] : List ℚ) := by
  simp only [SYNCABLE_EVENT_TYPES, List.mem_cons, List.not_mem_nil, or_false]
  constructor
  · rintro (rfl | rfl | rfl | rfl | rfl | rfl | rfl | rfl | rfl | rfl | rfl | rfl) <;>
      norm_num
  · rintro (rfl | rfl | rfl | rfl | rfl | rfl | rfl | rfl | rfl | rfl | rfl | rfl) <;>
      norm_num

/-- Claim C9: filterEventsToSync keeps exactly the rows whose x and y
cells are non-null, non-undefined and not NaN, whose period is 1 or 2,
and whose event type lies in the fixed syncable set; it preserves the
original row order and the columnar invariant (every rebuilt column has
the new numRows as length, fieldNames unchanged), and returns the
dataset unmodified when any of the four needed columns is absent. -/
theorem filterEventsToSync_spec (d : ColumnarData)
    (xCol yCol periodCol eventTypeCol : List Value)
    (hx : getCol d "x" = some xCol) (hy : getCol d "y" = some yCol)
    (hp : getCol d "period_id" = some periodCol)
    (he : getCol d "event_type_id" = some eventTypeCol) :
    (filterEventsToSync d).fieldNames = d.fieldNames ∧
    (filterEventsToSync d).numRows =
      (validIndices d xCol yCol periodCol eventTypeCol).length ∧
    (∀ i : ℕ, i ∈ validIndices d xCol yCol periodCol eventTypeCol ↔
      (i < d.numRows ∧
       getAt xCol i ≠ Value.null ∧ getAt xCol i ≠ Value.undef ∧
       getAt xCol i ≠ Value.nan ∧
       getAt yCol i ≠ Value.null ∧ getAt yCol i ≠ Value.undef ∧
       getAt yCol i ≠ Value.nan ∧
       (getAt periodCol i = Value.num 1 ∨ getAt periodCol i = Value.num 2) ∧
       (∃ q, getAt eventTypeCol i = Value.num q ∧
         q ∈ ([1, 2, 5, 6, 8, 12, 13, 14, 15, 16, 44, 49] : List ℚ)))) ∧
    List.Pairwise (· < ·) (validIndices d xCol yCol periodCol eventTypeCol) ∧
    (∀ f ∈ d.fieldNames, ∃ col',
      getCol (filterEventsToSync d) f = some col' ∧
      col'.length = (validIndices d xCol yCol periodCol eventTypeCol).length ∧
      ∀ (k : ℕ) (hk : k < (validIndices d xCol yCol periodCol eventTypeCol).length),
        getAt col' k = getAt ((getCol d f).getD [])
          ((validIndices d xCol yCol periodCol eventTypeCol).get ⟨k, hk⟩)) ∧
    (∀ d' : ColumnarData,
      (getCol d' "x" = none ∨ getCol d' "y" = none ∨
        getCol d' "period_id" = none ∨ getCol d' "event_type_id" = none) →
      filterEventsToSync d' = d') := by
  refine ⟨?_, ?_, ?_, ?_, ?_, ?_⟩
  · simp only [filterEventsToSync, hx, hy, hp, he]
  · simp only [filterEventsToSync, hx, hy, hp, he]
  · intro i
    constructor
    · intro hmem
      obtain ⟨hr, hpred⟩ := List.mem_filter.1 hmem
      have h1 := List.mem_range.1 hr
      obtain ⟨hx1, hx2, hx3, hy1, hy2, hy3, hper, q, hq, hqmem⟩ :=
        of_decide_eq_true hpred
      exact ⟨h1, hx1, hx2, hx3, hy1, hy2, hy3, hper, q, hq,
        (syncable_set_eq q).1 hqmem⟩
    · rintro ⟨h1, hx1, hx2, hx3, hy1, hy2, hy3, hper, q, hq, hqmem⟩
      refine List.mem_filter.2 ⟨List.mem_range.2 h1, decide_eq_true ?_⟩
      exact ⟨hx1, hx2, hx3, hy1, hy2, hy3, hper, q, hq,
        (syncable_set_eq q).2 hqmem⟩
  · exact List.Pairwise.sublist (List.filter_sublist _) (List.pairwise_lt_range _)
  · intro f hf
    refine ⟨(validIndices d xCol yCol periodCol eventTypeCol).map
      (fun i => getAt ((getCol d f).getD []) i), ?_, by simp, ?_⟩
    · simp only [filterEventsToSync, hx, hy, hp, he]
      exact lookup_pairMap d.fieldNames _ f hf
    · intro k hk
      have hk' : k < ((validIndices d xCol yCol periodCol eventTypeCol).map
          (fun i => getAt ((getCol d f).getD []) i)).length := by
        simpa using hk
      rw [getAt, List.getD_eq_getElem _ _ hk', List.getElem_map]
      rfl
  · intro d' h
    rcases h1 : getCol d' "x" with _ | c1
    · simp only [filterEventsToSync, h1]
    · rcases h2 : getCol d' "y" with _ | c2
      · simp only [filterEventsToSync, h1, h2]
      · rcases h3 : getCol d' "period_id" with _ | c3
        · simp only [filterEventsToSync, h1, h2, h3]
        · rcases h4 : getCol d' "event_type_id" with _ | c4
          · simp only [filterEventsToSync, h1, h2, h3, h4]
          · rcases h with h | h | h | h
            · rw [h1] at h; cases h
            · rw [h2] at h; cases h
            · rw [h3] at h; cases h
            · rw [h4] at h; cases h

/-- Witness for claim C9 on the three-row ingestion example: exactly
the first row survives. -/
theorem filterEventsToSync_spec_witness :
    (filterEventsToSync ingEvents).fieldNames = ingEvents.fieldNames ∧
    (filterEventsToSync ingEvents).numRows =
      (validIndices ingEvents ingX ingY ingP ingT).length ∧
    validIndices ingEvents ingX ingY ingP ingT = [0] :=
  ⟨(filterEventsToSync_spec ingEvents ingX ingY ingP ingT
      (by decide) (by decide) (by decide) (by decide)).1,
   (filterEventsToSync_spec ingEvents ingX ingY ingP ingT
      (by decide) (by decide) (by decide) (by decide)).2.1,
   by decide⟩

/-- Claim C10: convertTrackingToOpta replaces only the pos_x and pos_y
columns, converting each entry pair through realToOpta; numRows,
fieldNames and every other column are identical to the input, and the
dataset is returned entirely unchanged when either position column is
missing.  The numeric-cell hypotheses delimit the modelled domain. -/
theorem convertTrackingToOpta_frame (d : ColumnarData) (xs ys : List Value)
    (hx : getCol d "pos_x" = some xs) (hy : getCol d "pos_y" = some ys)
    (hlx : xs.length = d.numRows) (hly : ys.length = d.numRows)
    (_hnx : ∀ v ∈ xs, isNumVal v) (_hny : ∀ v ∈ ys, isNumVal v) :
    (convertTrackingToOpta d).numRows = d.numRows ∧
    (convertTrackingToOpta d).fieldNames = d.fieldNames ∧
    (∀ f, ¬ f = "pos_x" → ¬ f = "pos_y" →
      getCol (convertTrackingToOpta d) f = getCol d f) ∧
    (∃ xs', getCol (convertTrackingToOpta d) "pos_x" = some xs' ∧
      xs'.length = d.numRows ∧
      ∀ k : ℕ, k < d.numRows →
        getAt xs' k = Value.num ((realToOpta (valNumD (getAt xs k) 0)
          (valNumD (getAt ys k) 0)).1)) ∧
    (∃ ys', getCol (convertTrackingToOpta d) "pos_y" = some ys' ∧
      ys'.length = d.numRows ∧
      ∀ k : ℕ, k < d.numRows →
        getAt ys' k = Value.num ((realToOpta (valNumD (getAt xs k) 0)
          (valNumD (getAt ys k) 0)).2)) ∧
    (∀ d' : ColumnarData,
      (getCol d' "pos_x" = none ∨ getCol d' "pos_y" = none) →
      convertTrackingToOpta d' = d') := by
  have hxlen : (xs.map (fun v => valNumD v 0)).length = d.numRows := by
    simpa using hlx
  have hylen : (ys.map (fun v => valNumD v 0)).length = d.numRows := by
    simpa using hly
  refine ⟨?_, ?_, ?_, ?_, ?_, ?_⟩
  · simp only [convertTrackingToOpta, hx, hy]
  · simp only [convertTrackingToOpta, hx, hy]
  · intro f h1 h2
    simp only [convertTrackingToOpta, hx, hy]
    simp only [getCol, List.lookup, beq_eq_false_iff_ne.2 h1,
      beq_eq_false_iff_ne.2 h2]
  · refine ⟨((realToOptaArrays (xs.map (fun v => valNumD v 0))
        (ys.map (fun v => valNumD v 0))).1).map Value.num, ?_, ?_, ?_⟩
    · simp only [convertTrackingToOpta, hx, hy]
      simp only [getCol, List.lookup, beq_self_eq_true]
    · simp only [realToOptaArrays, List.length_map, List.length_zipWith,
        hxlen, hylen, min_self]
    · intro k hk
      have hk1 : k < (((realToOptaArrays (xs.map (fun v => valNumD v 0))
          (ys.map (fun v => valNumD v 0))).1).map Value.num).length := by
        simp only [realToOptaArrays, List.length_map, List.length_zipWith,
          hxlen, hylen, min_self]
        exact hk
      have hkx : k < xs.length := by omega
      have hky : k < ys.length := by omega
      rw [getAt, List.getD_eq_getElem _ _ hk1]
      simp only [realToOptaArrays, List.getElem_map, List.getElem_zipWith]
      rw [getAt, List.getD_eq_getElem _ _ hkx, getAt,
        List.getD_eq_getElem _ _ hky]
  · refine ⟨((realToOptaArrays (xs.map (fun v => valNumD v 0))
        (ys.map (fun v => valNumD v 0))).2).map Value.num, ?_, ?_, ?_⟩
    · simp only [convertTrackingToOpta, hx, hy]
      simp only [getCol, List.lookup]
      rfl
    · simp only [realToOptaArrays, List.length_map, List.length_zipWith,
        hxlen, hylen, min_self]
    · intro k hk
      have hk1 : k < (((realToOptaArrays (xs.map (fun v => valNumD v 0))
          (ys.map (fun v => valNumD v 0))).2).map Value.num).length := by
        simp only [realToOptaArrays, List.length_map, List.length_zipWith,
          hxlen, hylen, min_self]
        exact hk
      have hkx : k < xs.length := by omega
      have hky : k < ys.length := by omega
      rw [getAt, List.getD_eq_getElem _ _ hk1]
      simp only [realToOptaArrays, List.getElem_map, List.getElem_zipWith]
      rw [getAt, List.getD_eq_getElem _ _ hkx, getAt,
        List.getD_eq_getElem _ _ hky]
  · intro d' h
    rcases h1 : getCol d' "pos_x" with _ | c1
    · simp only [convertTrackingToOpta, h1]
    · rcases h2 : getCol d' "pos_y" with _ | c2
      · simp only [convertTrackingToOpta, h1, h2]
      · rcases h with h | h
        · rw [h1] at h; cases h
        · rw [h2] at h; cases h

/-- At the axis midpoint (the last source breakpoint) the X-axis
interpolation hits the last target breakpoint. -/
lemma interp_mid_x : interp REAL_X_MID X_BREAKS_REAL X_BREAKS_OPTA = 50 := by
  simp only [REAL_X_MID, X_BREAKS_REAL, X_BREAKS_OPTA]
  rw [interp_stop5 (by norm_num) (by norm_num) (by norm_num) (by norm_num)
    (by norm_num) (by norm_num)]
  norm_num

/-- At the axis midpoint the Y-axis interpolation hits the last target
breakpoint. -/
lemma interp_mid_y : interp REAL_Y_MID Y_BREAKS_REAL Y_BREAKS_OPTA = 50 := by
  simp only [REAL_Y_MID, Y_BREAKS_REAL, Y_BREAKS_OPTA]
  rw [interp_stop5 (by norm_num) (by norm_num) (by norm_num) (by norm_num)
    (by norm_num) (by norm_num)]
  norm_num

/-- Mirrored conversion of a value and of its reflection about the
source midpoint sum to twice the target midpoint, provided the
interpolation maps the midpoint to the target midpoint. -/
lemma convertWithMirror_sum (sb tb : List ℚ) (mid : ℚ)
    (h : interp mid sb tb = tb.getD (tb.length - 1) 0) (v : ℚ) :
    convertWithMirror v sb tb mid + convertWithMirror (2 * mid - v) sb tb mid =
      2 * tb.getD (tb.length - 1) 0 := by
  rcases lt_trichotomy v mid with hlt | heq | hgt
  · have c1 : ¬ v > mid := not_lt.2 (le_of_lt hlt)
    have c2 : 2 * mid - v > mid := by linarith
    simp only [convertWithMirror, if_neg c1, if_pos c2]
    have harg : 2 * mid - (2 * mid - v) = v := by ring
    rw [harg]
    ring
  · subst heq
    have harg : 2 * v - v = v := by ring
    rw [harg]
    have c1 : ¬ v > v := lt_irrefl v
    simp only [convertWithMirror, if_neg c1]
    rw [h]
    ring
  · have c1 : v > mid := hgt
    have c2 : ¬ 2 * mid - v > mid := not_lt.2 (by linarith)
    simp only [convertWithMirror, if_pos c1, if_neg c2]
    ring

/-- Rounding a value and rounding its reflection about 100 give
results whose sum differs from 100 by at most one hundredth. -/
lemma jsRound_reflection (a : ℚ) :
    |((jsRound (a * 100) : ℚ) / 100) +
      ((jsRound ((100 - a) * 100) : ℚ) / 100) - 100| ≤ 1 / 100 := by
  unfold jsRound
  rw [abs_le]
  have b1 : ((⌊a * 100 + 1/2⌋ : ℤ) : ℚ) ≤ a * 100 + 1/2 := Int.floor_le _
  have b2 : a * 100 + 1/2 - 1 < ((⌊a * 100 + 1/2⌋ : ℤ) : ℚ) :=
    Int.sub_one_lt_floor _
  have b3 : ((⌊(100 - a) * 100 + 1/2⌋ : ℤ) : ℚ) ≤ (100 - a) * 100 + 1/2 :=
    Int.floor_le _
  have b4 : (100 - a) * 100 + 1/2 - 1 < ((⌊(100 - a) * 100 + 1/2⌋ : ℤ) : ℚ) :=
    Int.sub_one_lt_floor _
  constructor
  · linarith
  · linarith

/-- Claim C6 counterexample: the input 60 lies beyond every source
breakpoint of the X table, yet its interpolated value 3500/61 exceeds
every target breakpoint — the output is extrapolated past the table
instead of being clamped into it. -/
theorem interp_no_output_clamp_counterexample :
    (∀ b ∈ X_BREAKS_REAL, b < 60) ∧
    (∀ b ∈ X_BREAKS_OPTA, b ≤ 50) ∧
    interp 60 X_BREAKS_REAL X_BREAKS_OPTA = 3500 / 61 ∧
    (50 : ℚ) < 3500 / 61 := by
  refine ⟨?_, ?_, ?_, by norm_num⟩
  · intro b hb
    simp only [X_BREAKS_REAL, List.mem_cons, List.not_mem_nil, or_false] at hb
    rcases hb with rfl | rfl | rfl | rfl | rfl | rfl | rfl <;> norm_num
  · intro b hb
    simp only [X_BREAKS_OPTA, List.mem_cons, List.not_mem_nil, or_false] at hb
    rcases hb with rfl | rfl | rfl | rfl | rfl | rfl | rfl <;> norm_num
  · simp only [X_BREAKS_REAL, X_BREAKS_OPTA]
    rw [interp_beyond (by norm_num) (by norm_num) (by norm_num) (by norm_num)
      (by norm_num) (by norm_num)]
    norm_num

/-- Claim C6 as amended: between two adjacent breakpoints the per-axis
interpolation agrees with the affine map through the segment endpoints;
for inputs outside the table the segment index is clamped to the
nearest valid segment but that segment map is applied without bounding
the output, so inputs beyond the last breakpoint (or before the first)
extrapolate linearly along the outermost segment and the output can
leave the target range. -/
theorem interp_piecewise_linear :
    (∀ v : ℚ, 0 ≤ v → v ≤ 5.5 → interp v X_BREAKS_REAL X_BREAKS_OPTA =
      0 + (v - 0) / (5.5 - 0) * (5.8 - 0)) ∧
    (∀ v : ℚ, 5.5 ≤ v → v ≤ 11 → interp v X_BREAKS_REAL X_BREAKS_OPTA =
      5.8 + (v - 5.5) / (11 - 5.5) * (11.5 - 5.8)) ∧
    (∀ v : ℚ, 11 ≤ v → v ≤ 16.5 → interp v X_BREAKS_REAL X_BREAKS_OPTA =
      11.5 + (v - 11) / (16.5 - 11) * (17 - 11.5)) ∧
    (∀ v : ℚ, 16.5 ≤ v → v ≤ 20.15 → interp v X_BREAKS_REAL X_BREAKS_OPTA =
      17 + (v - 16.5) / (20.15 - 16.5) * (20.4 - 17)) ∧
    (∀ v : ℚ, 20.15 ≤ v → v ≤ 43.35 → interp v X_BREAKS_REAL X_BREAKS_OPTA =
      20.4 + (v - 20.15) / (43.35 - 20.15) * (41 - 20.4)) ∧
    (∀ v : ℚ, 43.35 ≤ v → v ≤ 52.5 → interp v X_BREAKS_REAL X_BREAKS_OPTA =
      41 + (v - 43.35) / (52.5 - 43.35) * (50 - 41)) ∧
    (∀ v : ℚ, 52.5 < v → interp v X_BREAKS_REAL X_BREAKS_OPTA =
      41 + (v - 43.35) / (52.5 - 43.35) * (50 - 41)) ∧
    (∀ v : ℚ, v < 0 → interp v X_BREAKS_REAL X_BREAKS_OPTA =
      0 + (v - 0) / (5.5 - 0) * (5.8 - 0)) ∧
    (∀ v : ℚ, 0 ≤ v → v ≤ 13.84 → interp v Y_BREAKS_REAL Y_BREAKS_OPTA =
      0 + (v - 0) / (13.84 - 0) * (21.1 - 0)) ∧
    (∀ v : ℚ, 13.84 ≤ v → v ≤ 24.84 → interp v Y_BREAKS_REAL Y_BREAKS_OPTA =
      21.1 + (v - 13.84) / (24.84 - 13.84) * (36.8 - 21.1)) ∧
    (∀ v : ℚ, 24.84 ≤ v → v ≤ 26.69 → interp v Y_BREAKS_REAL Y_BREAKS_OPTA =
      36.8 + (v - 24.84) / (26.69 - 24.84) * (40 - 36.8)) ∧
    (∀ v : ℚ, 26.69 ≤ v → v ≤ 30.22 → interp v Y_BREAKS_REAL Y_BREAKS_OPTA =
      40 + (v - 26.69) / (30.22 - 26.69) * (44.2 - 40)) ∧
    (∀ v : ℚ, 30.22 ≤ v → v ≤ 30.34 → interp v Y_BREAKS_REAL Y_BREAKS_OPTA =
      44.2 + (v - 30.22) / (30.34 - 30.22) * (45.2 - 44.2)) ∧
    (∀ v : ℚ, 30.34 ≤ v → v ≤ 34 → interp v Y_BREAKS_REAL Y_BREAKS_OPTA =
      45.2 + (v - 30.34) / (34 - 30.34) * (50 - 45.2)) ∧
    (∀ v : ℚ, 34 < v → interp v Y_BREAKS_REAL Y_BREAKS_OPTA =
      45.2 + (v - 30.34) / (34 - 30.34) * (50 - 45.2)) ∧
    (∀ v : ℚ, v < 0 → interp v Y_BREAKS_REAL Y_BREAKS_OPTA =
      0 + (v - 0) / (13.84 - 0) * (21.1 - 0)) := by
  refine ⟨?_, ?_, ?_, ?_, ?_, ?_, ?_, ?_, ?_, ?_, ?_, ?_, ?_, ?_, ?_, ?_⟩
  · intro v h1 h2
    simp only [X_BREAKS_REAL, X_BREAKS_OPTA]
    exact interp_stop0 h2
  · intro v h1 h2
    simp only [X_BREAKS_REAL, X_BREAKS_OPTA]
    rcases eq_or_lt_of_le h1 with heq | hgt
    · rw [← heq, interp_stop0 (by norm_num)]
      norm_num
    · exact interp_stop1 hgt h2
  · intro v h1 h2
    simp only [X_BREAKS_REAL, X_BREAKS_OPTA]
    rcases eq_or_lt_of_le h1 with heq | hgt
    · rw [← heq, interp_stop1 (by norm_num) (by norm_num)]
      norm_num
    · exact interp_stop2 (by linarith) hgt h2
  · intro v h1 h2
    simp only [X_BREAKS_REAL, X_BREAKS_OPTA]
    rcases eq_or_lt_of_le h1 with heq | hgt
    · rw [← heq, interp_stop2 (by norm_num) (by norm_num) (by norm_num)]
      norm_num
    · exact interp_stop3 (by linarith) (by linarith) hgt h2
  · intro v h1 h2
    simp only [X_BREAKS_REAL, X_BREAKS_OPTA]
    rcases eq_or_lt_of_le h1 with heq | hgt
    · rw [← heq, interp_stop3 (by norm_num) (by norm_num) (by norm_num)
        (by norm_num)]
      norm_num
    · exact interp_stop4 (by linarith) (by linarith) (by linarith) hgt h2
  · intro v h1 h2
    simp only [X_BREAKS_REAL, X_BREAKS_OPTA]
    rcases eq_or_lt_of_le h1 with heq | hgt
    · rw [← heq, interp_stop4 (by norm_num) (by norm_num) (by norm_num)
        (by norm_num) (by norm_num)]
      norm_num
    · exact interp_stop5 (by linarith) (by linarith) (by linarith) (by linarith)
        hgt h2
  · intro v h
    simp only [X_BREAKS_REAL, X_BREAKS_OPTA]
    exact interp_beyond (by linarith) (by linarith) (by linarith) (by linarith)
      (by linarith) h
  · intro v h
    simp only [X_BREAKS_REAL, X_BREAKS_OPTA]
    exact interp_stop0 (by linarith)
  · intro v h1 h2
    simp only [Y_BREAKS_REAL, Y_BREAKS_OPTA]
    exact interp_stop0 h2
  · intro v h1 h2
    simp only [Y_BREAKS_REAL, Y_BREAKS_OPTA]
    rcases eq_or_lt_of_le h1 with heq | hgt
    · rw [← heq, interp_stop0 (by norm_num)]
      norm_num
    · exact interp_stop1 hgt h2
  · intro v h1 h2
    simp only [Y_BREAKS_REAL, Y_BREAKS_OPTA]
    rcases eq_or_lt_of_le h1 with heq | hgt
    · rw [← heq, interp_stop1 (by norm_num) (by norm_num)]
      norm_num
    · exact interp_stop2 (by linarith) hgt h2
  · intro v h1 h2
    simp only [Y_BREAKS_REAL, Y_BREAKS_OPTA]
    rcases eq_or_lt_of_le h1 with heq | hgt
    · rw [← heq, interp_stop2 (by norm_num) (by norm_num) (by norm_num)]
      norm_num
    · exact interp_stop3 (by linarith) (by linarith) hgt h2
  · intro v h1 h2
    simp only [Y_BREAKS_REAL, Y_BREAKS_OPTA]
    rcases eq_or_lt_of_le h1 with heq | hgt
    · rw [← heq, interp_stop3 (by norm_num) (by norm_num) (by norm_num)
        (by norm_num)]
      norm_num
    · exact interp_stop4 (by linarith) (by linarith) (by linarith) hgt h2
  · intro v h1 h2
    simp only [Y_BREAKS_REAL, Y_BREAKS_OPTA]
    rcases eq_or_lt_of_le h1 with heq | hgt
    · rw [← heq, interp_stop4 (by norm_num) (by norm_num) (by norm_num)
        (by norm_num) (by norm_num)]
      norm_num
    · exact interp_stop5 (by linarith) (by linarith) (by linarith) (by linarith)
        hgt h2
  · intro v h
    simp only [Y_BREAKS_REAL, Y_BREAKS_OPTA]
    exact interp_beyond (by linarith) (by linarith) (by linarith) (by linarith)
      (by linarith) h
  · intro v h
    simp only [Y_BREAKS_REAL, Y_BREAKS_OPTA]
    exact interp_stop0 (by linarith)

/-- Witness for claim C6 as amended: the first X segment at 3, and the
beyond-table extrapolation at 60. -/
theorem interp_piecewise_linear_witness :
    interp 3 X_BREAKS_REAL X_BREAKS_OPTA = 0 + (3 - 0) / (5.5 - 0) * (5.8 - 0) ∧
    interp 60 X_BREAKS_REAL X_BREAKS_OPTA =
      41 + (60 - 43.35) / (52.5 - 43.35) * (50 - 41) :=
  ⟨interp_piecewise_linear.1 3 (by norm_num) (by norm_num),
   interp_piecewise_linear.2.2.2.2.2.2.1 60 (by norm_num)⟩

/-- Claim C7: converting a point and its reflection about the pitch
center yields outputs that are point reflections about the canonical
center (50, 50) within the rounding tolerance: per axis the two outputs
sum to 100 up to one hundredth. -/
theorem realToOpta_mirror_symmetry (x y : ℚ) :
    |(realToOpta x y).1 + (realToOpta (-x) (-y)).1 - 100| ≤ 1 / 100 ∧
    |(realToOpta x y).2 + (realToOpta (-x) (-y)).2 - 100| ≤ 1 / 100 := by
  have htmx : X_BREAKS_OPTA.getD (X_BREAKS_OPTA.length - 1) 0 = 50 := rfl
  have htmy : Y_BREAKS_OPTA.getD (Y_BREAKS_OPTA.length - 1) 0 = 50 := rfl
  have hmx : interp REAL_X_MID X_BREAKS_REAL X_BREAKS_OPTA =
      X_BREAKS_OPTA.getD (X_BREAKS_OPTA.length - 1) 0 := by
    rw [htmx]; exact interp_mid_x
  have hmy : interp REAL_Y_MID Y_BREAKS_REAL Y_BREAKS_OPTA =
      Y_BREAKS_OPTA.getD (Y_BREAKS_OPTA.length - 1) 0 := by
    rw [htmy]; exact interp_mid_y
  have hsx := convertWithMirror_sum X_BREAKS_REAL X_BREAKS_OPTA REAL_X_MID hmx
    (x * REAL_X_MID / PITCH_X_HALF + REAL_X_MID)
  have hsy := convertWithMirror_sum Y_BREAKS_REAL Y_BREAKS_OPTA REAL_Y_MID hmy
    (y * REAL_Y_MID / PITCH_Y_HALF + REAL_Y_MID)
  rw [htmx] at hsx
  rw [htmy] at hsy
  have hargx : (-x) * REAL_X_MID / PITCH_X_HALF + REAL_X_MID =
      2 * REAL_X_MID - (x * REAL_X_MID / PITCH_X_HALF + REAL_X_MID) := by
    ring
  have hargy : (-y) * REAL_Y_MID / PITCH_Y_HALF + REAL_Y_MID =
      2 * REAL_Y_MID - (y * REAL_Y_MID / PITCH_Y_HALF + REAL_Y_MID) := by
    ring
  constructor
  · simp only [realToOpta]
    rw [hargx]
    have h2 : convertWithMirror
        (2 * REAL_X_MID - (x * REAL_X_MID / PITCH_X_HALF + REAL_X_MID))
        X_BREAKS_REAL X_BREAKS_OPTA REAL_X_MID =
        100 - convertWithMirror (x * REAL_X_MID / PITCH_X_HALF + REAL_X_MID)
          X_BREAKS_REAL X_BREAKS_OPTA REAL_X_MID := by
      linarith
    rw [h2]
    exact jsRound_reflection _
  · simp only [realToOpta]
    rw [hargy]
    have h2 : convertWithMirror
        (2 * REAL_Y_MID - (y * REAL_Y_MID / PITCH_Y_HALF + REAL_Y_MID))
        Y_BREAKS_REAL Y_BREAKS_OPTA REAL_Y_MID =
        100 - convertWithMirror (y * REAL_Y_MID / PITCH_Y_HALF + REAL_Y_MID)
          Y_BREAKS_REAL Y_BREAKS_OPTA REAL_Y_MID := by
      linarith
    rw [h2]
    exact jsRound_reflection _

/-- Witness for claim C10 on the one-row tracking dataset. -/
theorem convertTrackingToOpta_frame_witness :
    (convertTrackingToOpta posData).numRows = posData.numRows ∧
    (convertTrackingToOpta posData).fieldNames = posData.fieldNames :=
  ⟨(convertTrackingToOpta_frame posData [Value.num 10] [Value.num 5]
      (by decide) (by decide) (by decide) (by decide) (by decide) (by decide)).1,
   (convertTrackingToOpta_frame posData [Value.num 10] [Value.num 5]
      (by decide) (by decide) (by decide) (by decide) (by decide) (by decide)).2.1⟩

end SyncTool
